import Mathlib

/-!
Verification development for the logistics back-office distance/pricing core.

The subject program is a Flask application; the subsystems modelled here are
the ones the design document specifies:
  * `app/services/pricing.py`  : compute_price
  * `app/services/routing.py`  : geocode_address, haversine_km,
      ors_distance_km_coords, osrm_distance_km_coords, ors_distance_km,
      osrm_distance_km, office_full_address, office_coords,
      compute_distance_from_form
  * `app/blueprints/api.py`    : api_geocode (throttled geocoding proxy)

Modelling conventions.
  * Python float arithmetic is idealised: rationals for the pricing engine and
    the throttle clock, reals for the geometric code (which uses sqrt, asin,
    pi).  `round(x, 2)` is modelled as `round (x * 100) / 100`; Python rounds
    ties to even while Mathlib rounds ties up, a difference that no statement
    below depends on (every numeric claim has slack and every equality claim
    uses the same rounding model on both sides).
  * The database and the three external web services are modelled as an
    explicit environment `Env` of pure oracles: whatever a provider answers
    (including a swallowed transport error or an empty candidate list) is one
    `Option` value.  Network traffic is made observable: each function returns
    the list of outbound `Call`s it performed alongside its result.
  * Python string helpers are re-implemented over the character list so that
    concrete instances reduce in the kernel: `trimStr`/`lowerStr`/`upperStr`
    model `str.strip`/`str.lower`/`str.upper` (ASCII suffices here), `pyInt`
    models `int(...)` on plain decimal literals, returning `none` where Python
    raises `ValueError`.
-/

/-- Python `str.lower`, modelled over the character list. -/
def lowerStr (s : String) : String := String.mk (s.data.map Char.toLower)

/-- Python `str.upper`, modelled over the character list. -/
def upperStr (s : String) : String := String.mk (s.data.map Char.toUpper)

/-- Python `str.strip`: drop leading and trailing whitespace. -/
def trimStr (s : String) : String :=
  String.mk (((s.data.dropWhile Char.isWhitespace).reverse.dropWhile
    Char.isWhitespace).reverse)

/-- Value of a nonempty all-digit character list, else `none`. -/
def digitsVal : List Char → Option Nat
  | [] => none
  | cs =>
    if cs.all Char.isDigit then
      some (cs.foldl (fun acc c => acc * 10 + (c.toNat - 48)) 0)
    else none

/-- Python `int(s)` on plain decimal literals: optional sign after stripping
whitespace; `none` models a raised `ValueError`. -/
def pyInt (s : String) : Option Int :=
  match (trimStr s).data with
  | '-' :: cs => (digitsVal cs).map (fun n => -(n : Int))
  | '+' :: cs => (digitsVal cs).map (fun n => (n : Int))
  | cs => (digitsVal cs).map (fun n => (n : Int))

/-- Cache keys in `compute_distance_from_form` are the lower-cased,
whitespace-stripped address strings: `origin_addr.strip().lower()`. -/
def normalize_key (s : String) : String := lowerStr (trimStr s)

/-- Python `round(x, 2)` over the rationals. -/
def round2 (x : ℚ) : ℚ := (round (x * 100) : ℚ) / 100

/-- Python `round(x, 2)` over the reals (used by the geometric code). -/
noncomputable def round2R (x : ℝ) : ℝ := (round (x * 100) : ℝ) / 100

/-- The pricing coefficients row (`SELECT ... FROM company WHERE id=1`).
The engine re-reads it on every call; the model passes the row explicitly. -/
structure PricingConfig where
  base_price_per_kg : ℚ
  per_km_rate : ℚ
  office_delivery_multiplier : ℚ
  address_delivery_multiplier : ℚ
  size_multiplier_s : ℚ
  size_multiplier_m : ℚ
  size_multiplier_l : ℚ

/-- `compute_price` from `app/services/pricing.py`.  `distance_km` is optional
because the source evaluates `distance_km or 0.0`; `size` is optional because
the source evaluates `(size or 'M').upper()`. -/
def compute_price (c : PricingConfig) (weight_kg : ℚ) (to_office : Bool)
    (distance_km : Option ℚ) (size : Option String) : ℚ :=
  let base := c.base_price_per_kg * max weight_kg 0
  let dist := c.per_km_rate * max (distance_km.getD 0) 0
  let mult_delivery :=
    if to_office then c.office_delivery_multiplier
    else c.address_delivery_multiplier
  let size2 := upperStr (match size with
    | none => "M"
    | some s => if s = "" then "M" else s)
  let mult_size0 := c.size_multiplier_m
  let mult_size1 := if size2 = "S" then c.size_multiplier_s else mult_size0
  let mult_size2 := if size2 = "L" then c.size_multiplier_l else mult_size1
  round2 ((base + dist) * mult_delivery * mult_size2)

/-- Size multiplier as the claim states it: the size selects among the three
configured coefficients; anything other than S or L (including a missing
size) uses the M coefficient.  The comparison is on the upper-cased text,
matching the recognition the code performs. -/
def claim_size_multiplier (c : PricingConfig) (size : Option String) : ℚ :=
  match size with
  | none => c.size_multiplier_m
  | some s =>
    if upperStr s = "S" then c.size_multiplier_s
    else if upperStr s = "L" then c.size_multiplier_l
    else c.size_multiplier_m

/-- The process-wide `GEO_THROTTLE` dict: client id to last accepted
request time (`dict.get(ip, 0)` supplies the default). -/
def ThrottleState : Type := String → Option ℚ

/-- The dict write `GEO_THROTTLE[ip] = now`. -/
def record_throttle (st : ThrottleState) (ip : String) (now : ℚ) :
    ThrottleState :=
  fun k => if k = ip then some now else st k

/-- `api_geocode` from `app/blueprints/api.py`.  Arguments: throttle state,
upstream oracle (the Nominatim proxy call; `none` models a raised transport
error, which the handler turns into an empty 200 answer), client id, current
time, and the raw `q` query argument.  Result: (status code, body), the list
of upstream queries issued, and the new throttle state. -/
def api_geocode (st : ThrottleState) (net : String → Option (List String))
    (ip : String) (now : ℚ) (q : Option String) :
    (Nat × List String) × List String × ThrottleState :=
  let last := (st ip).getD 0
  if now - last < 1 then ((429, []), [], st)
  else
    let st2 := record_throttle st ip now
    let qt := trimStr (q.getD "")
    if qt.length < 3 then ((200, []), [], st2)
    else
      let query := qt ++ ", Bulgaria"
      ((200, (net query).getD []), [query], st2)

/-- One row of the `offices` table, as the routing module reads it
(`city`, `address`, and the optional stored `lat`/`lon`). -/
structure OfficeRow where
  city : String
  address : String
  lat : Option ℝ
  lon : Option ℝ

/-- One observable outbound network request of the routing module. -/
inductive Call where
  | geo (q : String)
  | ors (oLat oLon dLat dLon : ℝ)
  | osrm (oLat oLon dLat dLon : ℝ)

/-- The environment of `app/services/routing.py`: the `ORS_API_KEY`
credential flag, the `offices` table, the `distances_cache` table, and one
pure oracle per external service.  An oracle answer is the value the Python
function would extract from the HTTP response; `none` covers every absorbed
failure mode (transport error, timeout, malformed body, empty result). -/
structure Env where
  orsKey : Bool
  offices : Int → Option OfficeRow
  cache : String → String → Option ℝ
  geo : String → Option (ℝ × ℝ)
  ors : ℝ → ℝ → ℝ → ℝ → Option ℝ
  osrm : ℝ → ℝ → ℝ → ℝ → Option ℝ

/-- `geocode_address`: `None` or the empty string short-circuit (`if not
addr`); any other string is sent to the geocoder, whatever it answers. -/
def geocode_address (env : Env) (addr : Option String) :
    Option (ℝ × ℝ) × List Call :=
  match addr with
  | none => (none, [])
  | some a => if a = "" then (none, []) else (env.geo a, [Call.geo a])

/-- Degrees to radians, as `math.radians`. -/
noncomputable def radians (x : ℝ) : ℝ := x * Real.pi / 180

/-- `haversine_km`: the great-circle distance with mean Earth radius
6371.0 km, rounded to two decimals. -/
noncomputable def haversine_km (lat1 lon1 lat2 lon2 : ℝ) : ℝ :=
  let R : ℝ := 6371.0
  let phi1 := radians lat1
  let phi2 := radians lat2
  let dphi := radians (lat2 - lat1)
  let dlambda := radians (lon2 - lon1)
  let a := Real.sin (dphi / 2) ^ 2 +
    Real.cos phi1 * Real.cos phi2 * Real.sin (dlambda / 2) ^ 2
  round2R (2 * R * Real.arcsin (Real.sqrt a))

/-- `ors_distance_km_coords`: skipped outright without a credential,
otherwise one call to the premium provider. -/
def ors_distance_km_coords (env : Env) (oLat oLon dLat dLon : ℝ) :
    Option ℝ × List Call :=
  if env.orsKey then
    (env.ors oLat oLon dLat dLon, [Call.ors oLat oLon dLat dLon])
  else (none, [])

/-- `osrm_distance_km_coords`: one call to the public demo provider. -/
def osrm_distance_km_coords (env : Env) (oLat oLon dLat dLon : ℝ) :
    Option ℝ × List Call :=
  (env.osrm oLat oLon dLat dLon, [Call.osrm oLat oLon dLat dLon])

/-- `ors_distance_km`: checks the credential first, then geocodes both
address texts, then routes by the obtained coordinates. -/
def ors_distance_km (env : Env) (origin_addr dest_addr : String) :
    Option ℝ × List Call :=
  if env.orsKey then
    let o := geocode_address env (some origin_addr)
    let d := geocode_address env (some dest_addr)
    match o.1, d.1 with
    | some oc, some dc =>
      let r := ors_distance_km_coords env oc.1 oc.2 dc.1 dc.2
      (r.1, o.2 ++ d.2 ++ r.2)
    | _, _ => (none, o.2 ++ d.2)
  else (none, [])

/-- `osrm_distance_km`: geocodes both address texts, then routes by the
obtained coordinates via the demo provider. -/
def osrm_distance_km (env : Env) (origin_addr dest_addr : String) :
    Option ℝ × List Call :=
  let o := geocode_address env (some origin_addr)
  let d := geocode_address env (some dest_addr)
  match o.1, d.1 with
  | some oc, some dc =>
    let r := osrm_distance_km_coords env oc.1 oc.2 dc.1 dc.2
    (r.1, o.2 ++ d.2 ++ r.2)
  | _, _ => (none, o.2 ++ d.2)

/-- `office_full_address`: formats the stored office row as
`"{address}, {city}, Bulgaria"`; a falsy id (`None` or 0) or a missing row
yields `None`. -/
def office_full_address (env : Env) (office_id : Option Int) : Option String :=
  match office_id with
  | none => none
  | some i =>
    if i = 0 then none
    else match env.offices i with
      | none => none
      | some o => some (o.address ++ ", " ++ o.city ++ ", Bulgaria")

/-- `office_coords`: the stored coordinates when both are present, else
`None` (a falsy id or a missing row also yields `None`). -/
def office_coords (env : Env) (office_id : Option Int) : Option (ℝ × ℝ) :=
  match office_id with
  | none => none
  | some i =>
    if i = 0 then none
    else match env.offices i with
      | none => none
      | some o =>
        match o.lat, o.lon with
        | some la, some lo => some (la, lo)
        | _, _ => none

/-- The raw request form: each field is `form.get(key)`. -/
structure Form where
  pickup_from_office : Option String
  origin_office_id : Option String
  pickup_address : Option String
  to_office : Option String
  destination_office_id : Option String
  delivery_address : Option String

/-- The form values after the reading prelude of
`compute_distance_from_form` (flag comparison with `'on'`, `int(...)`
conversion of the office ids, `or None` on the address fields). -/
structure ParsedForm where
  pickup_from_office : Bool
  origin_office_id : Option Int
  pickup_address : Option String
  to_office : Bool
  dest_office_id : Option Int
  delivery_address : Option String

/-- Python `x or None` on an optional string: the empty string collapses
to `None`. -/
def strOrNone : Option String → Option String
  | none => none
  | some s => if s = "" then none else some s

/-- Python `int(x) if x else None`: a falsy field stays `None`, a numeric
literal parses, anything else raises `ValueError` (the `error` case). -/
def parse_office_id : Option String → Except Unit (Option Int)
  | none => Except.ok none
  | some s =>
    if s = "" then Except.ok none
    else match pyInt s with
      | some n => Except.ok (some n)
      | none => Except.error ()

/-- The form-reading prelude of `compute_distance_from_form` (source lines
reading the flags, office ids and addresses).  The only way it can raise is
`int(...)` on a non-numeric office id. -/
def read_form (f : Form) : Except Unit ParsedForm :=
  match parse_office_id f.origin_office_id,
        parse_office_id f.destination_office_id with
  | Except.ok oid, Except.ok did =>
    Except.ok
      { pickup_from_office := f.pickup_from_office == some "on"
        origin_office_id := oid
        pickup_address := strOrNone f.pickup_address
        to_office := f.to_office == some "on"
        dest_office_id := did
        delivery_address := strOrNone f.delivery_address }
  | Except.error e, _ => Except.error e
  | _, Except.error e => Except.error e

/-- `origin_addr` of the source: office full address when picking up from an
office, else the free pickup address. -/
def derived_origin_addr (env : Env) (p : ParsedForm) : Option String :=
  if p.pickup_from_office then office_full_address env p.origin_office_id
  else p.pickup_address

/-- `dest_addr` of the source. -/
def derived_dest_addr (env : Env) (p : ParsedForm) : Option String :=
  if p.to_office then office_full_address env p.dest_office_id
  else p.delivery_address

/-- `o_ll` of the source: stored coordinates for an office endpoint (no
network), geocoding for a free-address endpoint. -/
def derived_origin_ll (env : Env) (p : ParsedForm) :
    Option (ℝ × ℝ) × List Call :=
  if p.pickup_from_office then (office_coords env p.origin_office_id, [])
  else geocode_address env p.pickup_address

/-- `d_ll` of the source. -/
def derived_dest_ll (env : Env) (p : ParsedForm) :
    Option (ℝ × ℝ) × List Call :=
  if p.to_office then (office_coords env p.dest_office_id, [])
  else geocode_address env p.delivery_address

/-- The provider ladder after a cache miss, exactly as sequenced in the
source: ORS by coordinates, OSRM by coordinates (both only when both
endpoints have coordinates), ORS by addresses, OSRM by addresses, and the
haversine fallback (only when both endpoints have coordinates). -/
noncomputable def chain_after_cache (env : Env) (oa da : String)
    (o_ll d_ll : Option (ℝ × ℝ)) : Option ℝ × List Call :=
  let step12 : Option ℝ × List Call :=
    match o_ll, d_ll with
    | some oc, some dc =>
      let r1 := ors_distance_km_coords env oc.1 oc.2 dc.1 dc.2
      (match r1.1 with
       | some v => (some v, r1.2)
       | none =>
         let r2 := osrm_distance_km_coords env oc.1 oc.2 dc.1 dc.2
         (r2.1, r1.2 ++ r2.2))
    | _, _ => (none, [])
  let step3 : Option ℝ × List Call :=
    match step12.1 with
    | some v => (some v, step12.2)
    | none => let r := ors_distance_km env oa da; (r.1, step12.2 ++ r.2)
  let step4 : Option ℝ × List Call :=
    match step3.1 with
    | some v => (some v, step3.2)
    | none => let r := osrm_distance_km env oa da; (r.1, step3.2 ++ r.2)
  match step4.1, o_ll, d_ll with
  | none, some oc, some dc =>
    (some (haversine_km oc.1 oc.2 dc.1 dc.2), step4.2)
  | r, _, _ => (r, step4.2)

/-- `INSERT OR REPLACE INTO distances_cache`: upsert on the normalized key
pair. -/
def cache_insert (cache : String → String → Option ℝ) (k_o k_d : String)
    (v : ℝ) : String → String → Option ℝ :=
  fun a b => if a = k_o ∧ b = k_d then some v else cache a b

/-- The body of `compute_distance_from_form` after the form prelude: derive
both address texts (give up when either is missing), consult the cache under
the normalized key pair, on a miss derive coordinates and walk the provider
ladder, and write a non-null result back to the cache. -/
noncomputable def compute_distance_core (env : Env) (p : ParsedForm) :
    Option ℝ × List Call × Env :=
  match derived_origin_addr env p, derived_dest_addr env p with
  | some oa, some da =>
    let key_o := normalize_key oa
    let key_d := normalize_key da
    match env.cache key_o key_d with
    | some v => (some v, [], env)
    | none =>
      let o := derived_origin_ll env p
      let d := derived_dest_ll env p
      let r := chain_after_cache env oa da o.1 d.1
      match r.1 with
      | some v =>
        (some v, o.2 ++ d.2 ++ r.2,
          { env with cache := cache_insert env.cache key_o key_d v })
      | none => (none, o.2 ++ d.2 ++ r.2, env)
  | _, _ => (none, [], env)

/-- `compute_distance_from_form`: the form prelude (which can raise on a
non-numeric office id) followed by the resolution body. -/
noncomputable def compute_distance_from_form (env : Env) (f : Form) :
    Except Unit (Option ℝ × List Call × Env) :=
  (read_form f).map (compute_distance_core env)

/-- First defined element of a list of optional distances: the generic
short-circuiting fallback ladder. -/
def firstSome : List (Option ℝ) → Option ℝ
  | [] => none
  | some v :: _ => some v
  | none :: rest => firstSome rest

/-- The six fallback steps in the order the claim states them: cache on the
normalized pair, premium provider by coordinates (skipped without a
credential), demo provider by coordinates (both coordinate steps only when
both endpoints obtained coordinates), premium provider by address text, demo
provider by address text, great-circle computation (only when both endpoint
coordinates are known). -/
noncomputable def fallback_steps (env : Env) (p : ParsedForm)
    (oa da : String) : List (Option ℝ) :=
  let o_ll := (derived_origin_ll env p).1
  let d_ll := (derived_dest_ll env p).1
  [ env.cache (normalize_key oa) (normalize_key da),
    (match o_ll, d_ll with
     | some oc, some dc =>
       if env.orsKey then env.ors oc.1 oc.2 dc.1 dc.2 else none
     | _, _ => none),
    (match o_ll, d_ll with
     | some oc, some dc => env.osrm oc.1 oc.2 dc.1 dc.2
     | _, _ => none),
    (ors_distance_km env oa da).1,
    (osrm_distance_km env oa da).1,
    (match o_ll, d_ll with
     | some oc, some dc => some (haversine_km oc.1 oc.2 dc.1 dc.2)
     | _, _ => none) ]

/-- Fixture: every oracle fails, the cache is empty, no offices exist. -/
def env_allnone : Env :=
  { orsKey := true
    offices := fun _ => none
    cache := fun _ _ => none
    geo := fun _ => none
    ors := fun _ _ _ _ => none
    osrm := fun _ _ _ _ => none }

/-- Fixture: the cache answers 7 km for every key pair. -/
noncomputable def env_cachehit : Env :=
  { orsKey := false
    offices := fun _ => none
    cache := fun _ _ => some 7
    geo := fun _ => none
    ors := fun _ _ _ _ => none
    osrm := fun _ _ _ _ => none }

/-- Fixture: the geocoder answers (1, 2) for every query. -/
noncomputable def env_ws : Env :=
  { orsKey := false
    offices := fun _ => none
    cache := fun _ _ => none
    geo := fun _ => some (1, 2)
    ors := fun _ _ _ _ => none
    osrm := fun _ _ _ _ => none }

/-- Fixture: a form with every field absent. -/
def form_empty : Form :=
  { pickup_from_office := none
    origin_office_id := none
    pickup_address := none
    to_office := none
    destination_office_id := none
    delivery_address := none }

/-- Fixture: a form whose origin office id is the non-numeric text "x". -/
def form_bad : Form :=
  { pickup_from_office := none
    origin_office_id := some "x"
    pickup_address := none
    to_office := none
    destination_office_id := none
    delivery_address := none }

/-- Fixture: a parsed address-to-address request from "a" to "b". -/
def parsed_ab : ParsedForm :=
  { pickup_from_office := false
    origin_office_id := none
    pickup_address := some "a"
    to_office := false
    dest_office_id := none
    delivery_address := some "b" }

/-- Fixture: pricing coefficients all equal to one. -/
def cfg_ones : PricingConfig :=
  { base_price_per_kg := 1
    per_km_rate := 1
    office_delivery_multiplier := 1
    address_delivery_multiplier := 1
    size_multiplier_s := 1
    size_multiplier_m := 1
    size_multiplier_l := 1 }

/-- Fixture: a configuration with a negative per-kilogram price (nothing in
the program restricts the administrator-edited coefficients to be
nonnegative). -/
def cfg_neg : PricingConfig :=
  { base_price_per_kg := -1
    per_km_rate := 0
    office_delivery_multiplier := 1
    address_delivery_multiplier := 1
    size_multiplier_s := 1
    size_multiplier_m := 1
    size_multiplier_l := 1 }

/-- Fixture: the throttle map with no recorded client. -/
def st_empty : ThrottleState := fun _ => none

/-- Fixture: an upstream that answers an empty candidate list. -/
def net_empty : String → Option (List String) := fun _ => some []

/-- Monotonicity of two-decimal rounding. -/
theorem round2_mono {x y : ℚ} (h : x ≤ y) : round2 x ≤ round2 y := by
  unfold round2
  have h2 : round (x * 100) ≤ round (y * 100) := by
    rw [round_eq, round_eq]
    exact Int.floor_le_floor (by linarith)
  have h3 : ((round (x * 100) : ℤ) : ℚ) ≤ ((round (y * 100) : ℤ) : ℚ) := by
    exact_mod_cast h2
  linarith

/-- Monotonicity of the pre-rounding price expression. -/
theorem price_core_mono {b r md ms x1 x2 y1 y2 : ℚ} (hb : 0 ≤ b)
    (hr : 0 ≤ r) (hmd : 0 ≤ md) (hms : 0 ≤ ms) (hx : x1 ≤ x2)
    (hy : y1 ≤ y2) :
    (b * x1 + r * y1) * md * ms ≤ (b * x2 + r * y2) * md * ms := by
  have h1 : b * x1 + r * y1 ≤ b * x2 + r * y2 := by nlinarith
  have h2 := mul_le_mul_of_nonneg_right h1 hmd
  exact mul_le_mul_of_nonneg_right h2 hms

/-- C2: for every weight, distance, delivery mode and size, `compute_price`
returns `(base_price_per_kg * max(weight_kg, 0) + per_km_rate *
max(distance_km, 0)) * delivery_multiplier * size_multiplier` rounded to two
decimals, where the delivery multiplier is the office coefficient when
`to_office` holds and the address coefficient otherwise, and any size other
than S or L (including a missing one) uses the M coefficient. -/
theorem compute_price_formula_spec (c : PricingConfig) (w d : ℚ)
    (to_office : Bool) (size : Option String) :
    compute_price c w to_office (some d) size =
      round2 ((c.base_price_per_kg * max w 0 + c.per_km_rate * max d 0) *
        (if to_office then c.office_delivery_multiplier
         else c.address_delivery_multiplier) *
        claim_size_multiplier c size) := by
  cases size with
  | none => simp +decide [compute_price, claim_size_multiplier]
  | some s =>
    by_cases hs0 : s = ""
    · subst hs0
      simp +decide [compute_price, claim_size_multiplier]
    · by_cases hS : upperStr s = "S"
      · simp +decide [compute_price, claim_size_multiplier, hs0, hS]
      · by_cases hL : upperStr s = "L"
        · simp +decide [compute_price, claim_size_multiplier, hs0, hS, hL]
        · simp +decide [compute_price, claim_size_multiplier, hs0, hS, hL]

/-- C7 counterexample: with the (unchecked) negative per-kilogram
coefficient, the price strictly decreases as the weight grows from 0 to 1,
so `compute_price` is not monotone in the weight for every coefficient
record. -/
theorem price_not_monotone_negative_config :
    (0 : ℚ) ≤ 1 ∧
    ¬ (compute_price cfg_neg 0 true (some 0) none ≤
       compute_price cfg_neg 1 true (some 0) none) := by
  constructor
  · norm_num
  · norm_num [compute_price, cfg_neg, round2, round_eq]

/-- C7 (amended): provided the pricing coefficients are nonnegative,
`compute_price` is monotone non-decreasing in the weight and in the
distance, holding the delivery mode, the size and the coefficients fixed. -/
theorem compute_price_monotone (c : PricingConfig) (w1 w2 w d1 d2 : ℚ)
    (to_office : Bool) (d : Option ℚ) (size : Option String)
    (hb : 0 ≤ c.base_price_per_kg) (hr : 0 ≤ c.per_km_rate)
    (ho : 0 ≤ c.office_delivery_multiplier)
    (ha : 0 ≤ c.address_delivery_multiplier)
    (hs : 0 ≤ c.size_multiplier_s) (hm : 0 ≤ c.size_multiplier_m)
    (hl : 0 ≤ c.size_multiplier_l)
    (hw : w1 ≤ w2) (hd : d1 ≤ d2) :
    compute_price c w1 to_office d size ≤
      compute_price c w2 to_office d size ∧
    compute_price c w to_office (some d1) size ≤
      compute_price c w to_office (some d2) size := by
  have hmd : 0 ≤ (if to_office then c.office_delivery_multiplier
      else c.address_delivery_multiplier) := by
    split <;> assumption
  have hms : ∀ u : String,
      0 ≤ (if u = "L" then c.size_multiplier_l
           else if u = "S" then c.size_multiplier_s
           else c.size_multiplier_m) := by
    intro u
    split
    · assumption
    · split <;> assumption
  constructor
  · simp only [compute_price]
    exact round2_mono (price_core_mono hb hr hmd (hms _)
      (max_le_max hw le_rfl) le_rfl)
  · simp only [compute_price, Option.getD_some]
    exact round2_mono (price_core_mono hb hr hmd (hms _)
      le_rfl (max_le_max hd le_rfl))

/-- C7 witness: the amended monotonicity at the all-ones configuration. -/
theorem compute_price_monotone_witness :
    compute_price cfg_ones 0 true (some 1) none ≤
      compute_price cfg_ones 2 true (some 1) none ∧
    compute_price cfg_ones 1 true (some 0) none ≤
      compute_price cfg_ones 1 true (some 3) none :=
  compute_price_monotone cfg_ones 0 2 1 0 3 true (some 1) none
    (by norm_num [cfg_ones]) (by norm_num [cfg_ones])
    (by norm_num [cfg_ones]) (by norm_num [cfg_ones])
    (by norm_num [cfg_ones]) (by norm_num [cfg_ones])
    (by norm_num [cfg_ones]) (by norm_num) (by norm_num)

/-- C9: the great-circle distance is symmetric in its two endpoints, so
resolutions that fall through to the geometric fallback agree in both
directions. -/
theorem haversine_symmetric (lat1 lon1 lat2 lon2 : ℝ) :
    haversine_km lat1 lon1 lat2 lon2 = haversine_km lat2 lon2 lat1 lon1 := by
  simp only [haversine_km]
  have h1 : Real.sin (radians (lat2 - lat1) / 2) ^ 2
      = Real.sin (radians (lat1 - lat2) / 2) ^ 2 := by
    rw [show radians (lat2 - lat1) / 2 = -(radians (lat1 - lat2) / 2) by
      unfold radians; ring, Real.sin_neg]
    ring
  have h2 : Real.sin (radians (lon2 - lon1) / 2) ^ 2
      = Real.sin (radians (lon1 - lon2) / 2) ^ 2 := by
    rw [show radians (lon2 - lon1) / 2 = -(radians (lon1 - lon2) / 2) by
      unfold radians; ring, Real.sin_neg]
    ring
  rw [h1, h2, mul_comm (Real.cos (radians lat1)) (Real.cos (radians lat2))]

/-- C5 counterexample: a whitespace-only (but nonempty) address is not
short-circuited: the geocoder is called with it, and its answer is returned
rather than a silent `none`. -/
theorem geocode_whitespace_calls_network :
    (geocode_address env_ws (some " ")).1 = some (1, 2) ∧
    (geocode_address env_ws (some " ")).2 = [Call.geo " "] :=
  ⟨rfl, rfl⟩

/-- C5 (amended): a missing or empty address yields `none` with no network
call; any nonempty string — whitespace-only included — is sent to the
geocoder and its answer returned. -/
theorem geocode_empty_silent :
    (∀ env : Env, geocode_address env none = (none, [])) ∧
    (∀ env : Env, geocode_address env (some "") = (none, [])) ∧
    (∀ (env : Env) (s : String), s ≠ "" →
      geocode_address env (some s) = (env.geo s, [Call.geo s])) := by
  refine ⟨fun env => rfl, fun env => rfl, fun env s hs => ?_⟩
  simp [geocode_address, hs]

/-- C5 witness: the third clause evaluated at a concrete nonempty string. -/
theorem geocode_empty_silent_witness :
    geocode_address env_ws (some "x") = (env_ws.geo "x", [Call.geo "x"]) :=
  geocode_empty_silent.2.2 env_ws "x" (by decide)

/-- An application of `record_throttle` answers the recorded time for the
recorded client. -/
theorem record_throttle_self (st : ThrottleState) (ip : String) (now : ℚ) :
    record_throttle st ip now ip = some now := if_pos rfl

/-- A request that passes the throttle check answers 200 and records the
current time for its client, whatever the query was. -/
theorem api_geocode_accept (st : ThrottleState)
    (net : String → Option (List String)) (ip : String) (now : ℚ)
    (q : Option String) (h : ¬ (now - (st ip).getD 0 < 1)) :
    (api_geocode st net ip now q).1.1 = 200 ∧
    (api_geocode st net ip now q).2.2 = record_throttle st ip now := by
  simp only [api_geocode]
  rw [if_neg h]
  split
  · exact ⟨rfl, rfl⟩
  · exact ⟨rfl, rfl⟩

/-- A request that fails the throttle check answers 429 and leaves the
throttle state untouched. -/
theorem api_geocode_reject (st : ThrottleState)
    (net : String → Option (List String)) (ip : String) (now : ℚ)
    (q : Option String) (h : now - (st ip).getD 0 < 1) :
    api_geocode st net ip now q = ((429, []), [], st) := by
  simp only [api_geocode]
  rw [if_pos h]


/-- C6: starting from an accepted request at time `t1`, a second request
from the same client is rejected when it comes within the 1-second window
and accepted when it comes at least 1 second later; an accepted request
records its timestamp for the client and a rejected one leaves the state
unchanged. -/
theorem throttle_window_spec (st : ThrottleState)
    (net : String → Option (List String)) (ip : String) (t1 t2 : ℚ)
    (q1 q2 : Option String) (h : 1 ≤ t1 - (st ip).getD 0) :
    (api_geocode st net ip t1 q1).1.1 ≠ 429 ∧
    (api_geocode st net ip t1 q1).2.2 ip = some t1 ∧
    (t2 - t1 < 1 →
      (api_geocode ((api_geocode st net ip t1 q1).2.2) net ip t2 q2).1.1
        = 429 ∧
      (api_geocode ((api_geocode st net ip t1 q1).2.2) net ip t2 q2).2.2
        = (api_geocode st net ip t1 q1).2.2) ∧
    (1 ≤ t2 - t1 →
      (api_geocode ((api_geocode st net ip t1 q1).2.2) net ip t2 q2).1.1
        ≠ 429 ∧
      (api_geocode ((api_geocode st net ip t1 q1).2.2) net ip t2 q2).2.2 ip
        = some t2) := by
  have hacc : ¬ (t1 - (st ip).getD 0 < 1) := not_lt.mpr h
  obtain ⟨hA1, hA2⟩ := api_geocode_accept st net ip t1 q1 hacc
  have hst1 : (api_geocode st net ip t1 q1).2.2 ip = some t1 := by
    rw [hA2, record_throttle_self]
  refine ⟨by rw [hA1]; decide, hst1, fun hlt => ?_, fun hge => ?_⟩
  · have h2 : t2 - (((api_geocode st net ip t1 q1).2.2) ip).getD 0 < 1 := by
      rw [hst1]; simpa using hlt
    rw [api_geocode_reject ((api_geocode st net ip t1 q1).2.2) net ip t2
      q2 h2]
    exact ⟨rfl, rfl⟩
  · have h2 : ¬ (t2 - (((api_geocode st net ip t1 q1).2.2) ip).getD 0 < 1) := by
      rw [hst1]; simp only [Option.getD_some]; exact not_lt.mpr hge
    obtain ⟨hB1, hB2⟩ :=
      api_geocode_accept ((api_geocode st net ip t1 q1).2.2) net ip t2 q2 h2
    refine ⟨by rw [hB1]; decide, ?_⟩
    rw [hB2, record_throttle_self]

/-- C6 witness: a fresh client at times 1 and 3/2. -/
theorem throttle_window_spec_witness :
    (api_geocode st_empty net_empty "c" 1 none).1.1 ≠ 429 ∧
    (api_geocode st_empty net_empty "c" 1 none).2.2 "c" = some 1 ∧
    ((3 / 2 : ℚ) - 1 < 1 →
      (api_geocode ((api_geocode st_empty net_empty "c" 1 none).2.2)
        net_empty "c" (3 / 2) none).1.1 = 429 ∧
      (api_geocode ((api_geocode st_empty net_empty "c" 1 none).2.2)
        net_empty "c" (3 / 2) none).2.2
        = (api_geocode st_empty net_empty "c" 1 none).2.2) ∧
    (1 ≤ (3 / 2 : ℚ) - 1 →
      (api_geocode ((api_geocode st_empty net_empty "c" 1 none).2.2)
        net_empty "c" (3 / 2) none).1.1 ≠ 429 ∧
      (api_geocode ((api_geocode st_empty net_empty "c" 1 none).2.2)
        net_empty "c" (3 / 2) none).2.2 "c" = some (3 / 2)) :=
  throttle_window_spec st_empty net_empty "c" 1 (3 / 2) none none
    (by norm_num [st_empty])

/-- C10: a request that passes the throttle records the timestamp before the
query is validated — a too-short query answers an empty 200 with no upstream
call yet still consumes the slot, so an immediate follow-up from the same
client is rejected. -/
theorem short_query_consumes_throttle_slot (st : ThrottleState)
    (net : String → Option (List String)) (ip : String) (now t2 : ℚ)
    (q q2 : Option String)
    (hthr : 1 ≤ now - (st ip).getD 0)
    (hq : (trimStr (q.getD "")).length < 3)
    (ht2 : t2 - now < 1) :
    api_geocode st net ip now q
      = ((200, []), [], record_throttle st ip now) ∧
    (api_geocode (record_throttle st ip now) net ip t2 q2).1.1 = 429 := by
  have hacc : ¬ (now - (st ip).getD 0 < 1) := not_lt.mpr hthr
  constructor
  · simp only [api_geocode]
    rw [if_neg hacc, if_pos hq]
  · have h2 : t2 - ((record_throttle st ip now) ip).getD 0 < 1 := by
      rw [record_throttle_self]; simpa using ht2
    rw [api_geocode_reject (record_throttle st ip now) net ip t2 q2 h2]

/-- C10 witness: a fresh client, an absent query, times 1 and 3/2. -/
theorem short_query_consumes_throttle_slot_witness :
    api_geocode st_empty net_empty "c" 1 none
      = ((200, []), [], record_throttle st_empty "c" 1) ∧
    (api_geocode (record_throttle st_empty "c" 1) net_empty "c" (3 / 2)
      none).1.1 = 429 :=
  short_query_consumes_throttle_slot st_empty net_empty "c" 1 (3 / 2)
    none none (by norm_num [st_empty]) (by decide) (by norm_num)

/-- The provider ladder after a cache miss, as a short-circuiting walk over
the five post-cache steps in the claimed order. -/
theorem chain_after_cache_fst (env : Env) (oa da : String)
    (o_ll d_ll : Option (ℝ × ℝ)) :
    (chain_after_cache env oa da o_ll d_ll).1 =
      firstSome
        [ (match o_ll, d_ll with
           | some oc, some dc =>
             if env.orsKey then env.ors oc.1 oc.2 dc.1 dc.2 else none
           | _, _ => none),
          (match o_ll, d_ll with
           | some oc, some dc => env.osrm oc.1 oc.2 dc.1 dc.2
           | _, _ => none),
          (ors_distance_km env oa da).1,
          (osrm_distance_km env oa da).1,
          (match o_ll, d_ll with
           | some oc, some dc => some (haversine_km oc.1 oc.2 dc.1 dc.2)
           | _, _ => none) ] := by
  rcases o_ll with _ | oc <;> rcases d_ll with _ | dc
  case none.none =>
    rcases h1 : (ors_distance_km env oa da).1 with _ | v
    · rcases h2 : (osrm_distance_km env oa da).1 with _ | w <;>
        simp [chain_after_cache, h1, h2, firstSome]
    · simp [chain_after_cache, h1, firstSome]
  case none.some =>
    rcases h1 : (ors_distance_km env oa da).1 with _ | v
    · rcases h2 : (osrm_distance_km env oa da).1 with _ | w <;>
        simp [chain_after_cache, h1, h2, firstSome]
    · simp [chain_after_cache, h1, firstSome]
  case some.none =>
    rcases h1 : (ors_distance_km env oa da).1 with _ | v
    · rcases h2 : (osrm_distance_km env oa da).1 with _ | w <;>
        simp [chain_after_cache, h1, h2, firstSome]
    · simp [chain_after_cache, h1, firstSome]
  case some.some =>
    by_cases hk : env.orsKey
    · rcases ha : env.ors oc.1 oc.2 dc.1 dc.2 with _ | v
      · rcases hb : env.osrm oc.1 oc.2 dc.1 dc.2 with _ | w
        · rcases h1 : (ors_distance_km env oa da).1 with _ | x
          · rcases h2 : (osrm_distance_km env oa da).1 with _ | y <;>
              simp [chain_after_cache, ors_distance_km_coords,
                osrm_distance_km_coords, hk, ha, hb, h1, h2, firstSome]
          · simp [chain_after_cache, ors_distance_km_coords,
              osrm_distance_km_coords, hk, ha, hb, h1, firstSome]
        · simp [chain_after_cache, ors_distance_km_coords,
            osrm_distance_km_coords, hk, ha, hb, firstSome]
      · simp [chain_after_cache, ors_distance_km_coords, hk, ha, firstSome]
    · rcases hb : env.osrm oc.1 oc.2 dc.1 dc.2 with _ | w
      · rcases h1 : (ors_distance_km env oa da).1 with _ | x
        · rcases h2 : (osrm_distance_km env oa da).1 with _ | y <;>
            simp [chain_after_cache, ors_distance_km_coords,
              osrm_distance_km_coords, hk, hb, h1, h2, firstSome]
        · simp [chain_after_cache, ors_distance_km_coords,
            osrm_distance_km_coords, hk, hb, h1, firstSome]
      · simp [chain_after_cache, ors_distance_km_coords,
          osrm_distance_km_coords, hk, hb, firstSome]

/-- On a cache miss the resolution result is the ladder result. -/
theorem compute_core_fst_miss (env : Env) (p : ParsedForm) (oa da : String)
    (h1 : derived_origin_addr env p = some oa)
    (h2 : derived_dest_addr env p = some da)
    (hc : env.cache (normalize_key oa) (normalize_key da) = none) :
    (compute_distance_core env p).1 =
      (chain_after_cache env oa da (derived_origin_ll env p).1
        (derived_dest_ll env p).1).1 := by
  simp only [compute_distance_core, h1, h2, hc]
  rcases hr : (chain_after_cache env oa da (derived_origin_ll env p).1
      (derived_dest_ll env p).1).1 with _ | v <;> simp [hr]

/-- C1: whenever both address strings are derivable, the resolver result is
the first answer of the six-step fallback ladder — cache on the normalized
pair, then premium provider by coordinates (skipped without a credential),
then demo provider by coordinates (both coordinate steps only when both
endpoints obtained coordinates), then premium provider by address text, then
demo provider by address text, then the great-circle computation (only when
both endpoint coordinates are known) — and is absent exactly when every step
yields none. -/
theorem fallback_order_spec (env : Env) (p : ParsedForm) (oa da : String)
    (h1 : derived_origin_addr env p = some oa)
    (h2 : derived_dest_addr env p = some da) :
    (compute_distance_core env p).1 = firstSome (fallback_steps env p oa da) := by
  rcases hc : env.cache (normalize_key oa) (normalize_key da) with _ | v
  · rw [compute_core_fst_miss env p oa da h1 h2 hc,
      chain_after_cache_fst env oa da (derived_origin_ll env p).1
        (derived_dest_ll env p).1]
    simp [fallback_steps, hc, firstSome]
  · simp [compute_distance_core, fallback_steps, h1, h2, hc, firstSome]

/-- C1 witness: an address-to-address request with a warm cache. -/
theorem fallback_order_spec_witness :
    (compute_distance_core env_cachehit parsed_ab).1 =
      firstSome (fallback_steps env_cachehit parsed_ab "a" "b") :=
  fallback_order_spec env_cachehit parsed_ab "a" "b" rfl rfl

/-- C3: once a resolution for a pair has succeeded (and therefore written
the cache), any later request whose derived addresses normalize to the same
key pair answers the identical value from the cache alone, with no
geocoding and no provider call. -/
theorem cache_hit_on_second_request (env env2 : Env) (p p2 : ParsedForm)
    (oa da oa2 da2 : String) (v : ℝ) (cs : List Call)
    (h1 : derived_origin_addr env p = some oa)
    (h2 : derived_dest_addr env p = some da)
    (h3 : compute_distance_core env p = (some v, cs, env2))
    (h4 : derived_origin_addr env2 p2 = some oa2)
    (h5 : derived_dest_addr env2 p2 = some da2)
    (h6 : normalize_key oa2 = normalize_key oa)
    (h7 : normalize_key da2 = normalize_key da) :
    compute_distance_core env2 p2 = (some v, [], env2) := by
  have hA : env2.cache (normalize_key oa) (normalize_key da) = some v := by
    simp only [compute_distance_core, h1, h2] at h3
    rcases hc : env.cache (normalize_key oa) (normalize_key da) with _ | w
    · rw [hc] at h3
      rcases hr : (chain_after_cache env oa da (derived_origin_ll env p).1
          (derived_dest_ll env p).1).1 with _ | w
      · rw [hr] at h3
        simp at h3
      · rw [hr] at h3
        simp only [Prod.mk.injEq, Option.some.injEq] at h3
        obtain ⟨hw, _, henv⟩ := h3
        subst henv
        simp [cache_insert, hw]
    · rw [hc] at h3
      simp only [Prod.mk.injEq, Option.some.injEq] at h3
      obtain ⟨hw, _, henv⟩ := h3
      subst henv
      rw [hc, hw]
  simp only [compute_distance_core, h4, h5, h6, h7, hA]

/-- C3 witness: a warm cache answered both times. -/
theorem cache_hit_on_second_request_witness :
    compute_distance_core env_cachehit parsed_ab = (some 7, [], env_cachehit) :=
  cache_hit_on_second_request env_cachehit env_cachehit parsed_ab parsed_ab
    "a" "b" "a" "b" 7 [] rfl rfl rfl rfl rfl rfl rfl

/-- C4 counterexample: a form whose origin office id is the non-numeric
text "x" makes the resolver raise (`int("x")` raises `ValueError` before
any resolution step runs), so the resolver does not complete for every
input. -/
theorem resolver_raises_on_bad_office_id :
    compute_distance_from_form env_allnone form_bad = Except.error () := rfl

/-- A geocoder that finds nothing yields no coordinates for any input. -/
theorem geocode_fst_none (env : Env) (hgeo : ∀ s, env.geo s = none)
    (a : Option String) : (geocode_address env a).1 = none := by
  cases a with
  | none => rfl
  | some s =>
    simp only [geocode_address]
    split
    · rfl
    · simp [hgeo]

/-- No stored office coordinates and no geocoder answer leaves the origin
endpoint without coordinates. -/
theorem derived_origin_ll_fst_none (env : Env) (p : ParsedForm)
    (hgeo : ∀ s, env.geo s = none)
    (hoff : ∀ oid, office_coords env oid = none) :
    (derived_origin_ll env p).1 = none := by
  simp only [derived_origin_ll]
  split
  · simp [hoff]
  · exact geocode_fst_none env hgeo _

/-- The premium address tier cannot answer when geocoding always fails. -/
theorem ors_addr_fst_none (env : Env) (hgeo : ∀ s, env.geo s = none)
    (oa da : String) : (ors_distance_km env oa da).1 = none := by
  simp only [ors_distance_km]
  split
  · simp [geocode_fst_none env hgeo]
  · rfl

/-- The demo address tier cannot answer when geocoding always fails. -/
theorem osrm_addr_fst_none (env : Env) (hgeo : ∀ s, env.geo s = none)
    (oa da : String) : (osrm_distance_km env oa da).1 = none := by
  simp only [osrm_distance_km]
  simp [geocode_fst_none env hgeo]

/-- C4 (amended): for every request whose office-id fields are absent,
empty or numeric, the resolver completes without raising; with an empty
cache, no stored office coordinates and a geocoder that finds no match, no
provider failure aborts it and it answers absent.  (A non-numeric office id
does raise, per the counterexample.) -/
theorem resolver_absorbs_failures (env : Env) (f : Form) (p : ParsedForm)
    (hp : read_form f = Except.ok p)
    (hgeo : ∀ s, env.geo s = none)
    (hoff : ∀ oid, office_coords env oid = none)
    (hcache : ∀ a b, env.cache a b = none) :
    ∃ cs, compute_distance_from_form env f = Except.ok (none, cs, env) := by
  have hcore : ∃ cs, compute_distance_core env p = (none, cs, env) := by
    rcases hoa : derived_origin_addr env p with _ | oa
    · exact ⟨[], by simp [compute_distance_core, hoa]⟩
    · rcases hda : derived_dest_addr env p with _ | da
      · exact ⟨[], by simp [compute_distance_core, hoa, hda]⟩
      · have hnone : (chain_after_cache env oa da
            (derived_origin_ll env p).1 (derived_dest_ll env p).1).1
            = none := by
          rw [chain_after_cache_fst, derived_origin_ll_fst_none env p hgeo hoff]
          simp [firstSome, ors_addr_fst_none env hgeo,
            osrm_addr_fst_none env hgeo]
        refine ⟨(derived_origin_ll env p).2 ++ (derived_dest_ll env p).2 ++
          (chain_after_cache env oa da (derived_origin_ll env p).1
            (derived_dest_ll env p).1).2, ?_⟩
        simp only [compute_distance_core, hoa, hda, hcache, hnone]
  obtain ⟨cs, hcs⟩ := hcore
  exact ⟨cs, by simp [compute_distance_from_form, Except.map, hp, hcs]⟩

/-- C4 witness: the amended statement at the all-failing environment and
the empty form. -/
theorem resolver_absorbs_failures_witness :
    ∃ cs, compute_distance_from_form env_allnone form_empty
      = Except.ok (none, cs, env_allnone) :=
  resolver_absorbs_failures env_allnone form_empty
    { pickup_from_office := false
      origin_office_id := none
      pickup_address := none
      to_office := false
      dest_office_id := none
      delivery_address := none }
    rfl (fun _ => rfl)
    (fun oid => by cases oid <;> simp [office_coords, env_allnone])
    (fun _ _ => rfl)
/-- The haversine value at the Sofia and Plovdiv coordinates, with the
latitude and longitude differences folded into positive half-angles. -/
theorem haversine_concrete_form : haversine_km 42.6977 23.3219 42.1354 24.7453 =
    round2R (2 * 6371.0 * Real.arcsin (Real.sqrt
      (Real.sin (0.5623 * Real.pi / 360) ^ 2 +
       Real.cos (radians 42.6977) * Real.cos (radians 42.1354) *
         Real.sin (1.4234 * Real.pi / 360) ^ 2))) := by
  simp only [haversine_km]
  have e1 : radians (42.1354 - 42.6977) / 2 = -(0.5623 * Real.pi / 360) := by
    unfold radians; ring
  have e2 : radians (24.7453 - 23.3219) / 2 = 1.4234 * Real.pi / 360 := by
    unfold radians; ring
  rw [e1, e2, Real.sin_neg, neg_sq]

/-- Bounds on the squared sine of the latitude half-angle. -/
theorem sinu_sq_bounds :
    (0.0049068 : ℝ) ^ 2 ≤ Real.sin (0.5623 * Real.pi / 360) ^ 2 ∧
    Real.sin (0.5623 * Real.pi / 360) ^ 2 ≤ (0.004907 : ℝ) ^ 2 := by
  have hpi1 : (3.141592 : ℝ) < Real.pi := Real.pi_gt_d6
  have hpi2 : Real.pi < 3.141593 := Real.pi_lt_d6
  set u : ℝ := 0.5623 * Real.pi / 360 with hu
  have hu1 : (0.00490699 : ℝ) ≤ u := by rw [hu]; linarith
  have hu2 : u ≤ (0.004907 : ℝ) := by rw [hu]; linarith
  have hu_pos : (0 : ℝ) < u := by linarith
  have hu_le1 : |u| ≤ 1 := by rw [abs_of_nonneg hu_pos.le]; linarith
  have hsb := Real.sin_bound hu_le1
  rw [abs_of_nonneg hu_pos.le] at hsb
  obtain ⟨hsb1, hsb2⟩ := abs_le.mp hsb
  have hcube : u ^ 3 ≤ (0.004907 : ℝ) ^ 3 := pow_le_pow_left₀ hu_pos.le hu2 3
  have hfour : u ^ 4 ≤ (0.004907 : ℝ) ^ 4 := pow_le_pow_left₀ hu_pos.le hu2 4
  have hsin_lo : (0.0049068 : ℝ) ≤ Real.sin u := by nlinarith
  have hsin_hi : Real.sin u ≤ (0.004907 : ℝ) :=
    le_trans (Real.sin_lt hu_pos).le hu2
  exact ⟨pow_le_pow_left₀ (by norm_num) hsin_lo 2,
    pow_le_pow_left₀ (le_trans (by norm_num) hsin_lo) hsin_hi 2⟩

/-- Bounds on the squared sine of the longitude half-angle. -/
theorem sinv_sq_bounds :
    (0.0124211 : ℝ) ^ 2 ≤ Real.sin (1.4234 * Real.pi / 360) ^ 2 ∧
    Real.sin (1.4234 * Real.pi / 360) ^ 2 ≤ (0.0124216 : ℝ) ^ 2 := by
  have hpi1 : (3.141592 : ℝ) < Real.pi := Real.pi_gt_d6
  have hpi2 : Real.pi < 3.141593 := Real.pi_lt_d6
  set v : ℝ := 1.4234 * Real.pi / 360 with hv
  have hv1 : (0.0124215 : ℝ) ≤ v := by rw [hv]; linarith
  have hv2 : v ≤ (0.0124216 : ℝ) := by rw [hv]; linarith
  have hv_pos : (0 : ℝ) < v := by linarith
  have hv_le1 : |v| ≤ 1 := by rw [abs_of_nonneg hv_pos.le]; linarith
  have hsb := Real.sin_bound hv_le1
  rw [abs_of_nonneg hv_pos.le] at hsb
  obtain ⟨hsb1, hsb2⟩ := abs_le.mp hsb
  have hcube : v ^ 3 ≤ (0.0124216 : ℝ) ^ 3 := pow_le_pow_left₀ hv_pos.le hv2 3
  have hfour : v ^ 4 ≤ (0.0124216 : ℝ) ^ 4 := pow_le_pow_left₀ hv_pos.le hv2 4
  have hsin_lo : (0.0124211 : ℝ) ≤ Real.sin v := by nlinarith
  have hsin_hi : Real.sin v ≤ (0.0124216 : ℝ) :=
    le_trans (Real.sin_lt hv_pos).le hv2
  exact ⟨pow_le_pow_left₀ (by norm_num) hsin_lo 2,
    pow_le_pow_left₀ (le_trans (by norm_num) hsin_lo) hsin_hi 2⟩

/-- Bounds on the cosine of the Sofia latitude. -/
theorem cos_p1_bounds :
    (0.7062 : ℝ) ≤ Real.cos (radians 42.6977) ∧
    Real.cos (radians 42.6977) ≤ (0.7384 : ℝ) := by
  have hpi1 : (3.141592 : ℝ) < Real.pi := Real.pi_gt_d6
  have hpi2 : Real.pi < 3.141593 := Real.pi_lt_d6
  have hp_lo : (0.7452152 : ℝ) ≤ radians 42.6977 := by unfold radians; linarith
  have hp_hi : radians 42.6977 ≤ (0.7452156 : ℝ) := by unfold radians; linarith
  have hp_pos : (0 : ℝ) < radians 42.6977 := by linarith
  have hp_le1 : |radians 42.6977| ≤ 1 := by
    rw [abs_of_nonneg hp_pos.le]; linarith
  have hcb := Real.cos_bound hp_le1
  rw [abs_of_nonneg hp_pos.le] at hcb
  obtain ⟨hcb1, hcb2⟩ := abs_le.mp hcb
  have hsq_lo : (0.7452152 : ℝ) ^ 2 ≤ radians 42.6977 ^ 2 :=
    pow_le_pow_left₀ (by norm_num) hp_lo 2
  have hsq_hi : radians 42.6977 ^ 2 ≤ (0.7452156 : ℝ) ^ 2 :=
    pow_le_pow_left₀ hp_pos.le hp_hi 2
  have hfour : radians 42.6977 ^ 4 ≤ (0.7452156 : ℝ) ^ 4 :=
    pow_le_pow_left₀ hp_pos.le hp_hi 4
  constructor <;> nlinarith

/-- Bounds on the cosine of the Plovdiv latitude. -/
theorem cos_p2_bounds :
    (0.7143 : ℝ) ≤ Real.cos (radians 42.1354) ∧
    Real.cos (radians 42.1354) ≤ (0.7449 : ℝ) := by
  have hpi1 : (3.141592 : ℝ) < Real.pi := Real.pi_gt_d6
  have hpi2 : Real.pi < 3.141593 := Real.pi_lt_d6
  have hp_lo : (0.7354013 : ℝ) ≤ radians 42.1354 := by unfold radians; linarith
  have hp_hi : radians 42.1354 ≤ (0.7354016 : ℝ) := by unfold radians; linarith
  have hp_pos : (0 : ℝ) < radians 42.1354 := by linarith
  have hp_le1 : |radians 42.1354| ≤ 1 := by
    rw [abs_of_nonneg hp_pos.le]; linarith
  have hcb := Real.cos_bound hp_le1
  rw [abs_of_nonneg hp_pos.le] at hcb
  obtain ⟨hcb1, hcb2⟩ := abs_le.mp hcb
  have hsq_lo : (0.7354013 : ℝ) ^ 2 ≤ radians 42.1354 ^ 2 :=
    pow_le_pow_left₀ (by norm_num) hp_lo 2
  have hsq_hi : radians 42.1354 ^ 2 ≤ (0.7354016 : ℝ) ^ 2 :=
    pow_le_pow_left₀ hp_pos.le hp_hi 2
  have hfour : radians 42.1354 ^ 4 ≤ (0.7354016 : ℝ) ^ 4 :=
    pow_le_pow_left₀ hp_pos.le hp_hi 4
  constructor <;> nlinarith


/-- Bounds on the haversine radicand for the Sofia to Plovdiv pair. -/
theorem a_expr_bounds :
    (0.0001018 : ℝ) ≤ Real.sin (0.5623 * Real.pi / 360) ^ 2 +
      Real.cos (radians 42.6977) * Real.cos (radians 42.1354) *
        Real.sin (1.4234 * Real.pi / 360) ^ 2 ∧
    Real.sin (0.5623 * Real.pi / 360) ^ 2 +
      Real.cos (radians 42.6977) * Real.cos (radians 42.1354) *
        Real.sin (1.4234 * Real.pi / 360) ^ 2 ≤ (0.00011 : ℝ) := by
  have h1 := sinu_sq_bounds
  have h2 := sinv_sq_bounds
  have hc1 := cos_p1_bounds
  have hc2 := cos_p2_bounds
  have hprod_lo : (0.5044 : ℝ) ≤
      Real.cos (radians 42.6977) * Real.cos (radians 42.1354) := by
    nlinarith [hc1.1, hc1.2, hc2.1, hc2.2]
  have hprod_hi : Real.cos (radians 42.6977) * Real.cos (radians 42.1354)
      ≤ (0.5501 : ℝ) := by
    nlinarith [hc1.1, hc1.2, hc2.1, hc2.2]
  have hps_lo : (0.5044 : ℝ) * ((0.0124211 : ℝ) ^ 2) ≤
      Real.cos (radians 42.6977) * Real.cos (radians 42.1354) *
        Real.sin (1.4234 * Real.pi / 360) ^ 2 :=
    mul_le_mul hprod_lo h2.1 (by norm_num) (by linarith)
  have hps_hi : Real.cos (radians 42.6977) * Real.cos (radians 42.1354) *
      Real.sin (1.4234 * Real.pi / 360) ^ 2 ≤
      (0.5501 : ℝ) * ((0.0124216 : ℝ) ^ 2) :=
    mul_le_mul hprod_hi h2.2 (sq_nonneg _) (by norm_num)
  constructor
  · nlinarith [h1.1, hps_lo]
  · nlinarith [h1.2, hps_hi]

/-- Bounds on `arcsin (sqrt A)` for a radicand in the established
interval. -/
theorem arcsin_sqrt_small_bounds (A : ℝ) (hlo : (0.0001018 : ℝ) ≤ A)
    (hhi : A ≤ (0.00011 : ℝ)) :
    (0.00786 : ℝ) ≤ Real.arcsin (Real.sqrt A) ∧
    Real.arcsin (Real.sqrt A) ≤ (0.012549 : ℝ) := by
  have hpi1 : (3.141592 : ℝ) < Real.pi := Real.pi_gt_d6
  have hA_pos : (0 : ℝ) ≤ A := by linarith
  have hsqrt_hi : Real.sqrt A ≤ (0.0105 : ℝ) := by
    have h := Real.sqrt_le_sqrt (show A ≤ (0.0105 : ℝ) ^ 2 by nlinarith)
    rwa [Real.sqrt_sq (by norm_num : (0 : ℝ) ≤ 0.0105)] at h
  have hsqrt_lo : (0.00786 : ℝ) ≤ Real.sqrt A := by
    have hsq : (0.00786 : ℝ) ^ 2 ≤ A := by nlinarith
    have h := Real.sqrt_le_sqrt hsq
    rwa [Real.sqrt_sq (by norm_num : (0 : ℝ) ≤ 0.00786)] at h
  have hs1 : Real.sqrt A ≤ 1 := by linarith
  have hsinT : Real.sin (Real.arcsin (Real.sqrt A)) = Real.sqrt A :=
    Real.sin_arcsin (by linarith [Real.sqrt_nonneg A]) hs1
  have hT_pos : 0 < Real.arcsin (Real.sqrt A) :=
    Real.arcsin_pos.mpr (by linarith)
  constructor
  · have hlt := Real.sin_lt hT_pos
    rw [hsinT] at hlt
    linarith
  · have hc_le1 : |(0.012549 : ℝ)| ≤ 1 := by
      rw [abs_of_nonneg] <;> norm_num
    have hscb := Real.sin_bound hc_le1
    rw [abs_of_nonneg (by norm_num : (0 : ℝ) ≤ 0.012549)] at hscb
    obtain ⟨hscb1, hscb2⟩ := abs_le.mp hscb
    have hsin_c : (0.0105 : ℝ) ≤ Real.sin 0.012549 := by nlinarith
    have hmono : Real.arcsin (Real.sqrt A) ≤
        Real.arcsin (Real.sin 0.012549) :=
      Real.monotone_arcsin (le_trans hsqrt_hi hsin_c)
    rwa [Real.arcsin_sin (by nlinarith) (by nlinarith)] at hmono

/-- C8: the great-circle computation uses the mean Earth radius 6371.0 km
with the standard haversine formula and rounds to two decimals; at the
Sofia and Plovdiv coordinates its value lies in the interval [100, 160]
kilometres. -/
theorem haversine_sofia_plovdiv_bounds :
    (∀ lat1 lon1 lat2 lon2 : ℝ,
      haversine_km lat1 lon1 lat2 lon2 =
        round2R (2 * 6371.0 * Real.arcsin (Real.sqrt
          (Real.sin (radians (lat2 - lat1) / 2) ^ 2 +
           Real.cos (radians lat1) * Real.cos (radians lat2) *
             Real.sin (radians (lon2 - lon1) / 2) ^ 2)))) ∧
    100 ≤ haversine_km 42.6977 23.3219 42.1354 24.7453 ∧
    haversine_km 42.6977 23.3219 42.1354 24.7453 ≤ 160 := by
  have hA := a_expr_bounds
  have harc := arcsin_sqrt_small_bounds _ hA.1 hA.2
  have habs := abs_sub_round ((2 * (6371.0 : ℝ) *
    Real.arcsin (Real.sqrt (Real.sin (0.5623 * Real.pi / 360) ^ 2 +
      Real.cos (radians 42.6977) * Real.cos (radians 42.1354) *
        Real.sin (1.4234 * Real.pi / 360) ^ 2))) * 100)
  obtain ⟨hr1, hr2⟩ := abs_le.mp habs
  refine ⟨fun _ _ _ _ => rfl, ?_, ?_⟩
  · rw [haversine_concrete_form]
    simp only [round2R]
    linarith [harc.1, harc.2]
  · rw [haversine_concrete_form]
    simp only [round2R]
    linarith [harc.1, harc.2]
